import Mathlib

/-!
Verification of the view/scroll/render subsystem of the Skyline terminal client.

The definitions below are a shallow embedding of the Rust sources under
`src/ui/`:

* `PostListBase` and its scroll algorithms come from
  `src/ui/components/post_list.rs` (`handle_scroll_down`, `handle_scroll_up`,
  `calculate_post_height`).
* `Feed`, `AuthorFeed`, `NotificationView` and `Thread` model the four
  concrete list components; `View`, `ViewStack` model `src/ui/views.rs`.
* Machine integers (`usize`, `u16`) are modelled as `Nat`.  Rust's
  `saturating_sub` is `Nat` subtraction, which saturates at `0`.  A plain
  Rust `-` that can underflow (`posts.len() - 1` on an empty list) is
  modelled by returning `none`: this is a panic in a debug build (in a
  release build it wraps around).
* The two `for`/`while` loops inside `handle_scroll_down` are modelled with
  an explicit fuel argument; the call sites pass `hs.length`, which is
  provably sufficient (the loops advance an index bounded by the list
  length on every iteration).
-/

namespace Skyline

/-- Shared cursor state of every list component (`PostListBase` in
`src/ui/components/post_list.rs`). -/
structure PostListBase where
  selected_index : Nat
  scroll_offset : Nat
  last_known_height : Nat
  deriving DecidableEq

/-- `PostListBase::new` — all fields start at zero. -/
def PostListBase.new : PostListBase := ⟨0, 0, 0⟩

/-- Sum of `k` heights of `hs` starting at index `a` (out-of-range entries count
as `0`; in all uses the range is in bounds). -/
def sumFrom (hs : List Nat) : Nat → Nat → Nat
  | _, 0 => 0
  | a, k + 1 => (hs[a]?).getD 0 + sumFrom hs (a + 1) k

/-- Sum of the heights `hs[a] + ... + hs[b-1]`. -/
def sumRange (hs : List Nat) (a b : Nat) : Nat := sumFrom hs a (b - a)

/-- The inner `while` loop of `handle_scroll_down`: while the next-selected
item (of height `h`) does not fit, i.e. `y >= H.saturating_sub(h)`, scroll
the top item out of the viewport (`y -= hs[off]`, `off += 1`), stopping at the
end of the list.  `fuel` bounds the iteration count; call sites pass
`hs.length`, which suffices because `off` grows by one per iteration and the
loop stops once `hs.length - 1 <= off`. -/
def scroll_adjust_loop (hs : List Nat) (H h : Nat) : Nat → Nat → Nat → Nat × Nat
  | 0, off, y => (off, y)
  | fuel + 1, off, y =>
    if H - h ≤ y then
      if hs.length - 1 ≤ off then (off, y)
      else scroll_adjust_loop hs H h fuel (off + 1) (y - (hs[off]?).getD 0)
    else (off, y)

/-- The `for` loop of `handle_scroll_down`: walk the items from index `i`
accumulating their heights into `y`; on reaching index `next`, decide whether
the viewport must be scrolled (`y >= H || y + h > H`) and if so run the inner
`while` loop.  Returns the final `(scroll_offset, y)` pair; only the offset is
used by the caller. -/
def scroll_scan_loop (hs : List Nat) (H next : Nat) : Nat → Nat → Nat → Nat → Nat × Nat
  | 0, _, y, off => (off, y)
  | fuel + 1, i, y, off =>
    if hs.length ≤ i then (off, y)
    else
      if i = next then
        if H ≤ y ∨ H < y + (hs[i]?).getD 0 then
          scroll_adjust_loop hs H ((hs[i]?).getD 0) hs.length off y
        else (off, y)
      else scroll_scan_loop hs H next fuel (i + 1) (y + (hs[i]?).getD 0) off

/-- `PostListBase::handle_scroll_down` over the list of item heights `hs`
(the Rust function receives the posts plus a height accessor closure; only the
heights and the length are ever used).  On an empty list the guard computes
`posts.len() - 1`, which underflows `usize`; this is modelled as `none`. -/
def PostListBase.handle_scroll_down (hs : List Nat) (b : PostListBase) : Option PostListBase :=
  if hs.length = 0 then none
  else if hs.length - 1 ≤ b.selected_index then some b
  else some { b with
    selected_index := b.selected_index + 1,
    scroll_offset :=
      (scroll_scan_loop hs b.last_known_height (b.selected_index + 1) hs.length
        b.scroll_offset 0 b.scroll_offset).1 }

/-- `PostListBase::handle_scroll_up`. -/
def PostListBase.handle_scroll_up (b : PostListBase) : PostListBase :=
  if b.selected_index = 0 then b
  else
    { b with
      selected_index := b.selected_index - 1,
      scroll_offset :=
        if b.selected_index - 1 < b.scroll_offset then b.selected_index - 1
        else b.scroll_offset }

/-- `k` successive `handle_scroll_down` calls. -/
def scroll_down_iter (hs : List Nat) : Nat → PostListBase → Option PostListBase
  | 0, b => some b
  | k + 1, b => (PostListBase.handle_scroll_down hs b).bind (scroll_down_iter hs k)

/-- The cursor invariant of spec section 3: `scroll_offset <= selected_index`
and `selected_index < item_count`. -/
def CursorValid (hs : List Nat) (b : PostListBase) : Prop :=
  b.scroll_offset ≤ b.selected_index ∧ b.selected_index < hs.length

instance (hs : List Nat) (b : PostListBase) : Decidable (CursorValid hs b) :=
  inferInstanceAs (Decidable (b.scroll_offset ≤ b.selected_index ∧ b.selected_index < hs.length))

/-- The selected item lies fully inside the viewport: the rows occupied by the
items from `scroll_offset` up to and including `selected_index` fit within
`last_known_height`. -/
def SelectionContained (hs : List Nat) (b : PostListBase) : Prop :=
  sumRange hs b.scroll_offset (b.selected_index + 1) ≤ b.last_known_height

instance (hs : List Nat) (b : PostListBase) : Decidable (SelectionContained hs b) :=
  inferInstanceAs
    (Decidable (sumRange hs b.scroll_offset (b.selected_index + 1) ≤ b.last_known_height))

/-- Lookup in a `HashMap<String, u16>` modelled as an association list, with a
default for missing keys (`unwrap_or` in the Rust lookups). -/
def lookupHeight (m : List (String × Nat)) (k : String) (d : Nat) : Nat :=
  match m.find? (fun kv => kv.1 == k) with
  | some kv => kv.2
  | none => d

/-- A quoted post embedded in a post, as consumed by `calculate_post_height`
(`extract_quoted_post_data` / `get_post_text` / `extract_images_from_post`
results are modelled as fields). -/
structure QuotedPost where
  uri : String
  text : Option String
  has_images : Bool
  deriving DecidableEq

/-- A post as consumed by the list components: `text` is the record's `text`
field when present (`get_post_text`), `has_images` models
`extract_images_from_post(..).is_some()`, `quoted` models
`extract_quoted_post_data`. -/
structure PostView where
  uri : String
  author_did : String
  text : Option String
  has_images : Bool
  quoted : Option QuotedPost
  deriving DecidableEq

/-- `PostListBase::calculate_post_height` from `src/ui/components/post_list.rs`.
`fill_line_count text width` models the number of lines of
`textwrap::fill(text, width)` (the `textwrap` crate is an external
collaborator, so the wrap function is a parameter). -/
def PostListBase.calculate_post_height (fill_line_count : String → Nat → Nat)
    (post : PostView) (available_width : Nat) : Nat :=
  let height := 0
  let height := height + 2
  let height := height + 1
  let height := height + 1
  let height :=
    match post.text with
    | some text =>
      height + fill_line_count text (if 0 < available_width - 4 then available_width - 4 else 1)
    | none => height
  let height :=
    match post.quoted with
    | some quoted =>
      let height := height + 2
      let height := height + 1
      let height :=
        match quoted.text with
        | some qtext =>
          height +
            fill_line_count qtext (if 0 < available_width - 6 then available_width - 6 else 1)
        | none => height
      let height := height + 1
      if quoted.has_images then height + 15 else height
    | none => height
  if post.has_images then height + 15 else height

/-- Spec-side count of wrapped main-text rows ("text rows = wrapped line count
of the text at the padded width"). -/
def specTextRows (fill_line_count : String → Nat → Nat) (post : PostView)
    (available_width : Nat) : Nat :=
  match post.text with
  | some text => fill_line_count text (if 0 < available_width - 4 then available_width - 4 else 1)
  | none => 0

/-- Spec-side image rows: 15 fixed rows when the post carries an image block. -/
def specImageRows (post : PostView) : Nat :=
  if post.has_images then 15 else 0

/-- Spec-side quote-block rows: quote-header 1 + quoted-text wrapped lines +
quote-stats 1 + borders 2, plus 15 more when the quoted post has images. -/
def specQuoteRows (fill_line_count : String → Nat → Nat) (post : PostView)
    (available_width : Nat) : Nat :=
  match post.quoted with
  | some quoted =>
    1 + (match quoted.text with
      | some qtext =>
        fill_line_count qtext (if 0 < available_width - 6 then available_width - 6 else 1)
      | none => 0) + 1 + 2 + (if quoted.has_images then 15 else 0)
  | none => 0

/-- `NotificationData` as used by the notification list: uri, author did,
reason and read flag. -/
structure NotificationData where
  uri : String
  author_did : String
  reason : String
  is_read : Bool
  deriving DecidableEq

/-- `NotificationView` from `src/ui/components/notifications.rs`. -/
structure NotificationView where
  notifications : List NotificationData
  base : PostListBase
  deriving DecidableEq

/-- `NotificationView::new` — empty notification list, fresh cursor. -/
def NotificationView.new : NotificationView := ⟨[], PostListBase.new⟩

/-- `NotificationView::needs_more_content`:
`self.selected_index() > self.notifications.len().saturating_sub(5)`. -/
def NotificationView.needs_more_content (v : NotificationView) : Bool :=
  decide (v.notifications.length - 5 < v.base.selected_index)

/-- `NotificationView::get_notification` indexes
`self.notifications[selected_idx]`, which panics when out of bounds; the
panic is modelled as `none`. -/
def NotificationView.get_notification (v : NotificationView) : Option NotificationData :=
  v.notifications[v.base.selected_index]?

/-- The `View::Notifications` arm of `App::handle_follow` ('f'): it calls
`get_notification()` unconditionally and reads the author did. -/
def App.handle_follow_notifications_did (v : NotificationView) : Option String :=
  (v.get_notification).map (fun n => n.author_did)

/-- The `View::Notifications` arm of the 'a' (view author) key handler in
`App::handle_input`: calls `get_notification()` unconditionally. -/
def App.handle_view_author_notifications_did (v : NotificationView) : Option String :=
  (v.get_notification).map (fun n => n.author_did)

/-- The `View::Notifications` fallback arm of the `profile` command in
`App::handle_command`: calls `get_notification()` unconditionally. -/
def App.handle_profile_command_notifications_did (v : NotificationView) : Option String :=
  (v.get_notification).map (fun n => n.author_did)

/-- `AuthorProfile`: only the did and the rendered profile height are relevant
to the list logic. -/
structure AuthorProfile where
  did : String
  height : Nat
  deriving DecidableEq

/-- `AuthorFeed` from `src/ui/components/author_feed.rs`. -/
structure AuthorFeed where
  profile : AuthorProfile
  posts : List PostView
  post_heights : List (String × Nat)
  base : PostListBase
  deriving DecidableEq

/-- `AuthorFeed::new`: seeds the posts from the fetched feed data; the height
cache starts empty and the cursor at zero. -/
def AuthorFeed.new (profile : AuthorProfile) (feed_data : List PostView) : AuthorFeed :=
  ⟨profile, feed_data, [], PostListBase.new⟩

/-- The per-post heights used by `AuthorFeed::scroll_down`
(`self.post_heights.get(uri).copied().unwrap_or(6)`). -/
def AuthorFeed.heights (af : AuthorFeed) : List Nat :=
  af.posts.map (fun p => lookupHeight af.post_heights p.uri 6)

/-- `AuthorFeed::scroll_down`: same algorithm as
`PostListBase::handle_scroll_down` except that the accumulated `y_position`
starts at the profile height while `scroll_offset == 0`.  On an empty list the
guard computes `posts.len() - 1`, which underflows `usize`; modelled as
`none`. -/
def AuthorFeed.scroll_down (af : AuthorFeed) : Option AuthorFeed :=
  if af.posts.length = 0 then none
  else if af.posts.length - 1 ≤ af.base.selected_index then some af
  else some { af with base := { af.base with
    selected_index := af.base.selected_index + 1,
    scroll_offset :=
      (scroll_scan_loop af.heights af.base.last_known_height (af.base.selected_index + 1)
        af.posts.length af.base.scroll_offset
        (if af.base.scroll_offset = 0 then af.profile.height else 0)
        af.base.scroll_offset).1 } }

/-- `AuthorFeed::scroll_up`: jump back to the profile when leaving the first
post, otherwise the common `handle_scroll_up`. -/
def AuthorFeed.scroll_up (af : AuthorFeed) : AuthorFeed :=
  if af.base.selected_index = 1 ∧ 0 < af.base.scroll_offset then
    { af with base := { af.base with selected_index := 0, scroll_offset := 0 } }
  else { af with base := PostListBase.handle_scroll_up af.base }

/-- `AuthorFeed::needs_more_content`: the selected index is shifted down by
one to account for the profile row, then compared with
`posts.len().saturating_sub(5)` using a strict `>`. -/
def AuthorFeed.needs_more_content (af : AuthorFeed) : Bool :=
  decide (af.posts.length - 5 <
    (if af.base.selected_index = 0 then 0 else af.base.selected_index - 1))

/-- `PostList::get_selected_post` for `AuthorFeed`
(`get_post(selected_index())`, which is `posts.get(index)`). -/
def AuthorFeed.get_selected_post (af : AuthorFeed) : Option PostView :=
  af.posts[af.base.selected_index]?

/-- `ThreadViewPost` as consumed by the thread-relationship logic:
`record_parent_uri` is `record.reply.parent.uri` (via
`get_parent_uri_from_record`) and `record_root_uri` is `record.reply.root.uri`
(via `get_root_uri_from_record`). -/
structure ThreadViewPost where
  uri : String
  author_did : String
  record_parent_uri : Option String
  record_root_uri : Option String
  deriving DecidableEq

/-- `Thread` from `src/ui/components/thread.rs`: the flat post collection plus
the anchor (selected) uri.  `cached_relationships` is derived state and is
modelled by computing `get_relationships` on demand. -/
structure Thread where
  posts : List ThreadViewPost
  selected_uri : String
  deriving DecidableEq

/-- `ThreadRelationships`: visibility set and indent map (hash set / hash map
modelled as a uri list and an association list). -/
structure ThreadRelationships where
  root_uri : String
  selected_uri : String
  parent_uri : Option String
  visible_posts : List String
  indent_levels : List (String × Nat)
  deriving DecidableEq

/-- `ThreadRelationships::new`. -/
def ThreadRelationships.new (root selected : String) : ThreadRelationships :=
  ⟨root, selected, none, [], []⟩

/-- `ThreadRelationships::is_visible`. -/
def ThreadRelationships.is_visible (r : ThreadRelationships) (uri : String) : Bool :=
  r.visible_posts.contains uri

/-- `ThreadRelationships::get_indent_level` (default 0 for unknown uris). -/
def ThreadRelationships.get_indent_level (r : ThreadRelationships) (uri : String) : Nat :=
  match r.indent_levels.find? (fun kv => kv.1 == uri) with
  | some kv => kv.2
  | none => 0

/-- `ThreadRelationships::update`: insert into / remove from the visibility
set and indent map, and record the parent uri when shown. -/
def ThreadRelationships.update (r : ThreadRelationships) (post_uri parent_uri : String)
    (should_show : Bool) (indent_level : Nat) : ThreadRelationships :=
  if should_show then
    { r with
      visible_posts :=
        if r.visible_posts.contains post_uri then r.visible_posts
        else post_uri :: r.visible_posts,
      indent_levels := (post_uri, indent_level) :: r.indent_levels.filter (fun kv => kv.1 != post_uri),
      parent_uri := some parent_uri }
  else
    { r with
      visible_posts := r.visible_posts.filter (fun u => u != post_uri),
      indent_levels := r.indent_levels.filter (fun kv => kv.1 != post_uri) }

/-- `Thread::get_root_uri_from_thread`: the selected post's record root uri,
falling back to the selected post's own uri. -/
def Thread.get_root_uri_from_thread (t : Thread) : Option String :=
  (t.posts.find? (fun p => p.uri == t.selected_uri)).bind
    (fun sp =>
      match sp.record_root_uri with
      | some r => some r
      | none => some sp.uri)

/-- `Thread::should_show_reply`: show replies to the selected post at indent 1
and replies to the root at indent 0; everything else is hidden.  The reply uri
and post are received but unused (the author check in the source is computed
and then never used). -/
def Thread.should_show_reply (t : Thread) (_reply_uri : String) (parent_uri : String)
    (_reply_post : ThreadViewPost) : Bool × Nat :=
  let is_root_reply : Bool := parent_uri == (Thread.get_root_uri_from_thread t).getD ""
  let is_reply_to_selected : Bool := parent_uri == t.selected_uri
  if is_reply_to_selected then (true, 1)
  else if is_root_reply then (true, 0)
  else (false, 0)

/-- `Thread::get_relationships` (the cache-miss branch, which is the whole
computation): first mark the selected post visible at indent 0 and remember
its parent; then walk every other post, show it iff `should_show_reply` says
so, at indent 1 when its parent is the selected post's parent and at its
parent's indent + 1 otherwise.  The source's `current_parent_uri` variable is
written but never read and is omitted. -/
def Thread.get_relationships (t : Thread) : ThreadRelationships :=
  let root_uri := (Thread.get_root_uri_from_thread t).getD t.selected_uri
  let init := ThreadRelationships.new root_uri t.selected_uri
  let first :=
    match t.posts.find? (fun p => p.uri == t.selected_uri) with
    | some p =>
      match p.record_parent_uri with
      | some parent_uri => (some parent_uri, ThreadRelationships.update init p.uri parent_uri true 0)
      | none => (none, ThreadRelationships.update init p.uri root_uri true 0)
    | none => ((none : Option String), init)
  t.posts.foldl
    (fun r p =>
      if p.uri != t.selected_uri then
        match p.record_parent_uri with
        | some parent_uri =>
          if (Thread.should_show_reply t p.uri parent_uri p).1 then
            match first.1 with
            | some spp =>
              if parent_uri == spp then ThreadRelationships.update r p.uri parent_uri true 1
              else ThreadRelationships.update r p.uri parent_uri true
                (ThreadRelationships.get_indent_level r parent_uri + 1)
            | none => ThreadRelationships.update r p.uri parent_uri true
                (ThreadRelationships.get_indent_level r parent_uri + 1)
          else ThreadRelationships.update r p.uri parent_uri false 0
        | none => r
      else r)
    first.2

/-- `Feed` (the Timeline list) from `src/ui/components/feed.rs`; only the
fields relevant to list logic are modelled. -/
structure Feed where
  posts : List PostView
  selected_index : Nat
  scroll_offset : Nat
  post_heights : List (String × Nat)
  last_known_height : Nat
  deriving DecidableEq

/-- `Feed::new`. -/
def Feed.new : Feed := ⟨[], 0, 0, [], 0⟩

/-- `View` from `src/ui/views.rs`. -/
inductive View where
  | timeline : Feed → View
  | thread : Thread → View
  | authorFeed : AuthorFeed → View
  | notifications : NotificationView → View
  deriving DecidableEq

/-- `View::remove_post`: find the post by uri in the current list and remove
it (the Thread arm additionally recomputes the derived relationships, which
this model computes on demand; the Notifications arm is a no-op). -/
def View.remove_post (v : View) (uri : String) : View :=
  match v with
  | .timeline f =>
    match f.posts.findIdx? (fun p => p.uri == uri) with
    | some i => .timeline { f with posts := f.posts.eraseIdx i }
    | none => .timeline f
  | .thread t =>
    match t.posts.findIdx? (fun p => p.uri == uri) with
    | some i => .thread { t with posts := t.posts.eraseIdx i }
    | none => .thread t
  | .authorFeed af =>
    match af.posts.findIdx? (fun p => p.uri == uri) with
    | some i => .authorFeed { af with posts := af.posts.eraseIdx i }
    | none => .authorFeed af
  | .notifications nv => .notifications nv

/-- The `Union` wrapper around the fetched thread data in `push_thread_view`:
either usable refs (abstracted as the `Thread` that `Thread::new` builds from
them) or an unknown payload type. -/
inductive ThreadDataUnion where
  | refs : Thread → ThreadDataUnion
  | unknown : String → ThreadDataUnion
  deriving DecidableEq

/-- `ViewStack` from `src/ui/views.rs`: the bottom of the `Vec` is index 0. -/
structure ViewStack where
  views : List View
  deriving DecidableEq

/-- `ViewStack::new`: a single Timeline view. -/
def ViewStack.new : ViewStack := ⟨[View.timeline Feed.new]⟩

/-- `ViewStack::push_thread_view`: the network fetch is an input
(`Except`-valued).  On a fetch error, or on an unknown union payload, the
stack is returned unchanged with the error; on success the new Thread view is
appended. -/
def ViewStack.push_thread_view (s : ViewStack) (fetch : Except String ThreadDataUnion) :
    Except String Unit × ViewStack :=
  match fetch with
  | .ok (.refs t) => (.ok (), ⟨s.views ++ [View.thread t]⟩)
  | .ok (.unknown ty) => (.error ("Unknown thread data type: " ++ ty), s)
  | .error e => (.error e, s)

/-- `ViewStack::push_author_feed_view`: first the author-feed fetch, then the
profile fetch (the `?` after `get_profile`); any failure leaves the stack
unchanged, success appends the new AuthorFeed view. -/
def ViewStack.push_author_feed_view (s : ViewStack) (feed_fetch : Except String (List PostView))
    (profile_fetch : Except String AuthorProfile) : Except String Unit × ViewStack :=
  match feed_fetch with
  | .ok feed_data =>
    match profile_fetch with
    | .ok profile => (.ok (), ⟨s.views ++ [View.authorFeed (AuthorFeed.new profile feed_data)]⟩)
    | .error e => (.error e, s)
  | .error e => (.error e, s)

/-- `ViewStack::push_notifications_view` (from
`src/ui/components/notifications.rs`): always pushes a fresh, empty
notifications view. -/
def ViewStack.push_notifications_view (s : ViewStack) : ViewStack :=
  ⟨s.views ++ [View.notifications NotificationView.new]⟩

/-- `ViewStack::pop_view`: pops the top view unless it is the sole remaining
view. -/
def ViewStack.pop_view (s : ViewStack) : Option View × ViewStack :=
  if 1 < s.views.length then (s.views.getLast?, ⟨s.views.dropLast⟩) else (none, s)

/-- One user-visible stack operation, with the outcomes of the underlying
fetches as data. -/
inductive StackOp where
  | pushThread : Except String ThreadDataUnion → StackOp
  | pushAuthorFeed : Except String (List PostView) → Except String AuthorProfile → StackOp
  | pushNotifications : StackOp
  | pop : StackOp

/-- Apply one stack operation (ignoring the reported error, which does not
touch the stack). -/
def ViewStack.run_op (s : ViewStack) : StackOp → ViewStack
  | .pushThread f => (s.push_thread_view f).2
  | .pushAuthorFeed f p => (s.push_author_feed_view f p).2
  | .pushNotifications => s.push_notifications_view
  | .pop => (s.pop_view).2

/-- Apply a sequence of stack operations. -/
def ViewStack.run_ops (s : ViewStack) (ops : List StackOp) : ViewStack :=
  ops.foldl ViewStack.run_op s

/-- The stack is non-empty and its bottom view is the Timeline. -/
def TimelineAtBottom (s : ViewStack) : Prop :=
  ∃ f rest, s.views = View.timeline f :: rest

/-- Concrete thread scenario of claim C3: anchor `at://a` with ancestor chain
`[at://root, at://m, at://a]`, two direct replies to the anchor, and one
deeper reply to `at://r1`. -/
def rootPost : ThreadViewPost := ⟨"at://root", "did:alice", none, none⟩

/-- The middle ancestor: its record parent and root are the root post. -/
def middlePost : ThreadViewPost := ⟨"at://m", "did:bob", some "at://root", some "at://root"⟩

/-- The anchor post: record parent `at://m`, record root `at://root`. -/
def anchorPost : ThreadViewPost := ⟨"at://a", "did:carol", some "at://m", some "at://root"⟩

/-- First direct reply to the anchor. -/
def replyOne : ThreadViewPost := ⟨"at://r1", "did:dave", some "at://a", some "at://root"⟩

/-- Second direct reply to the anchor. -/
def replyTwo : ThreadViewPost := ⟨"at://r2", "did:erin", some "at://a", some "at://root"⟩

/-- A deeper reply whose parent is `at://r1`. -/
def replyToReplyOne : ThreadViewPost := ⟨"at://rr1", "did:frank", some "at://r1", some "at://root"⟩

/-- The thread as `process_thread_data` assembles it: ancestors first (root
downwards), then the anchor, then the fetched replies. -/
def exampleThread : Thread :=
  ⟨[rootPost, middlePost, anchorPost, replyOne, replyTwo, replyToReplyOne], "at://a"⟩

/-- A sample notification for concrete instances. -/
def sampleNotification : NotificationData := ⟨"at://notif1", "did:bob", "like", false⟩

/-- A sample post for concrete instances. -/
def samplePost : PostView := ⟨"at://post1", "did:alice", some "hello", false, none⟩

/-- A one-post author feed whose viewport height is 20 rows. -/
def soloAuthorFeed : AuthorFeed := ⟨⟨"did:alice", 5⟩, [samplePost], [], ⟨0, 0, 20⟩⟩

/-- The author feed that remains after removing the sole post of
`soloAuthorFeed`. -/
def emptyAuthorFeed : AuthorFeed := ⟨⟨"did:alice", 5⟩, [], [], ⟨0, 0, 20⟩⟩

/-- A ten-notification view with the selection on the 4th-from-last item. -/
def witnessNotifView : NotificationView := ⟨List.replicate 10 sampleNotification, ⟨6, 0, 30⟩⟩

/-- A ten-notification view with the selection on the 5th-from-last item. -/
def cexNotifView : NotificationView := ⟨List.replicate 10 sampleNotification, ⟨5, 0, 30⟩⟩

/-- A ten-post author feed with the selection at index 8. -/
def witnessAuthorFeed : AuthorFeed := ⟨⟨"did:bob", 5⟩, List.replicate 10 samplePost, [], ⟨8, 0, 30⟩⟩

/-- A notification view holding one notification with the cursor on it. -/
def singletonNotifView : NotificationView := ⟨[sampleNotification], ⟨0, 0, 3⟩⟩

/-- A stack of two views, used to instantiate the pop behaviour. -/
def twoViewStack : ViewStack :=
  ⟨[View.timeline Feed.new, View.notifications NotificationView.new]⟩

lemma sumRange_zero (hs : List Nat) (a b : Nat) (h : b ≤ a) : sumRange hs a b = 0 := by
  unfold sumRange
  rw [Nat.sub_eq_zero_of_le h]
  rfl

lemma sumRange_succ_left (hs : List Nat) (a b : Nat) (h : a < b) :
    sumRange hs a b = (hs[a]?).getD 0 + sumRange hs (a + 1) b := by
  unfold sumRange
  rw [show b - a = (b - (a + 1)) + 1 by omega]
  rfl

lemma sumRange_succ_right (hs : List Nat) : ∀ (d a b : Nat), b - a = d → a ≤ b →
    sumRange hs a (b + 1) = sumRange hs a b + (hs[b]?).getD 0 := by
  intro d
  induction d with
  | zero =>
    intro a b hd hab
    have hab' : a = b := by omega
    subst hab'
    rw [sumRange_succ_left hs a (a + 1) (by omega), sumRange_zero hs (a + 1) (a + 1) (le_refl _),
      sumRange_zero hs a a (le_refl _)]
    omega
  | succ d ih =>
    intro a b hd hab
    have hab' : a < b := by omega
    rw [sumRange_succ_left hs a (b + 1) (by omega), sumRange_succ_left hs a b hab',
      ih (a + 1) b (by omega) (by omega)]
    omega

lemma sumRange_pos_lt (hs : List Nat) (a b : Nat) (h : 0 < sumRange hs a b) : a < b := by
  by_contra hc
  push_neg at hc
  rw [sumRange_zero hs a b hc] at h
  omega

lemma scroll_adjust_loop_spec (hs : List Nat) (H h next : Nat) (hh : h < H)
    (hnext : next + 1 ≤ hs.length) :
    ∀ fuel off, off ≤ next → next - off ≤ fuel →
    ∃ off', scroll_adjust_loop hs H h fuel off (sumRange hs off next) =
        (off', sumRange hs off' next)
      ∧ off' ≤ next ∧ sumRange hs off' next + h ≤ H := by
  intro fuel
  induction fuel with
  | zero =>
    intro off hoff hfuel
    have hoe : off = next := by omega
    subst hoe
    refine ⟨off, rfl, le_refl _, ?_⟩
    rw [sumRange_zero hs off off (le_refl _)]
    omega
  | succ fuel ih =>
    intro off hoff hfuel
    by_cases hcond : H - h ≤ sumRange hs off next
    · have hpos : 0 < sumRange hs off next := by omega
      have hlt : off < next := sumRange_pos_lt hs off next hpos
      have hbrk : ¬ (hs.length - 1 ≤ off) := by omega
      have hofflen : off < hs.length := by omega
      have hget : hs[off]? = some hs[off] := List.getElem?_eq_getElem hofflen
      have hsub : sumRange hs off next - (hs[off]?).getD 0 = sumRange hs (off + 1) next := by
        rw [sumRange_succ_left hs off next hlt, hget]
        simp
      obtain ⟨off', heq, hle, hfit⟩ := ih (off + 1) (by omega) (by omega)
      refine ⟨off', ?_, by omega, hfit⟩
      rw [scroll_adjust_loop, if_pos hcond, if_neg hbrk, hsub]
      exact heq
    · refine ⟨off, ?_, hoff, by omega⟩
      rw [scroll_adjust_loop, if_neg hcond]

lemma scroll_scan_loop_spec (hs : List Nat) (H next : Nat) (hnext : next < hs.length) :
    ∀ fuel i y off, i ≤ next → next - i < fuel →
    scroll_scan_loop hs H next fuel i y off =
      (if H ≤ y + sumRange hs i next ∨ H < (y + sumRange hs i next) + (hs[next]?).getD 0
       then scroll_adjust_loop hs H ((hs[next]?).getD 0) hs.length off (y + sumRange hs i next)
       else (off, y + sumRange hs i next)) := by
  intro fuel
  induction fuel with
  | zero =>
    intro i y off hi hf
    exact absurd hf (by omega)
  | succ fuel ih =>
    intro i y off hi hf
    have hil : i < hs.length := by omega
    rw [scroll_scan_loop, if_neg (by omega : ¬ hs.length ≤ i)]
    by_cases hin : i = next
    · subst hin
      rw [if_pos rfl, sumRange_zero hs i i (le_refl _), Nat.add_zero]
    · rw [if_neg hin, ih (i + 1) (y + (hs[i]?).getD 0) off (by omega) (by omega),
        sumRange_succ_left hs i next (by omega)]
      rw [Nat.add_assoc]

lemma handle_scroll_down_step (hs : List Nat) (b : PostListBase)
    (hsel : b.selected_index + 1 < hs.length)
    (hoff : b.scroll_offset ≤ b.selected_index)
    (hH : ∀ x ∈ hs, x < b.last_known_height) :
    ∃ off', PostListBase.handle_scroll_down hs b =
        some ⟨b.selected_index + 1, off', b.last_known_height⟩
      ∧ off' ≤ b.selected_index + 1
      ∧ sumRange hs off' (b.selected_index + 2) ≤ b.last_known_height := by
  have hgetnext : hs[b.selected_index + 1]? = some hs[b.selected_index + 1] :=
    List.getElem?_eq_getElem hsel
  have hhlt : (hs[b.selected_index + 1]?).getD 0 < b.last_known_height := by
    rw [hgetnext]
    simpa using hH _ (List.getElem_mem hsel)
  unfold PostListBase.handle_scroll_down
  rw [if_neg (by omega : ¬ hs.length = 0),
    if_neg (by omega : ¬ hs.length - 1 ≤ b.selected_index)]
  rw [scroll_scan_loop_spec hs b.last_known_height (b.selected_index + 1) hsel hs.length
    b.scroll_offset 0 b.scroll_offset (by omega) (by omega)]
  rw [Nat.zero_add]
  by_cases hc : b.last_known_height ≤ sumRange hs b.scroll_offset (b.selected_index + 1) ∨
      b.last_known_height < sumRange hs b.scroll_offset (b.selected_index + 1) +
        (hs[b.selected_index + 1]?).getD 0
  · rw [if_pos hc]
    obtain ⟨off', heq, hle, hfit⟩ :=
      scroll_adjust_loop_spec hs b.last_known_height ((hs[b.selected_index + 1]?).getD 0)
        (b.selected_index + 1) hhlt (by omega) hs.length b.scroll_offset (by omega) (by omega)
    rw [heq]
    refine ⟨off', rfl, hle, ?_⟩
    rw [show b.selected_index + 2 = (b.selected_index + 1) + 1 by omega,
      sumRange_succ_right hs ((b.selected_index + 1) - off') off' (b.selected_index + 1) rfl hle]
    omega
  · rw [if_neg hc]
    push_neg at hc
    refine ⟨b.scroll_offset, rfl, by omega, ?_⟩
    rw [show b.selected_index + 2 = (b.selected_index + 1) + 1 by omega,
      sumRange_succ_right hs ((b.selected_index + 1) - b.scroll_offset) b.scroll_offset
        (b.selected_index + 1) rfl (by omega)]
    omega

lemma handle_scroll_down_preserves (hs : List Nat) (b : PostListBase)
    (hne : hs.length ≠ 0)
    (hH : ∀ x ∈ hs, x < b.last_known_height)
    (hv : CursorValid hs b) (hc : SelectionContained hs b) :
    ∃ b', PostListBase.handle_scroll_down hs b = some b'
      ∧ CursorValid hs b' ∧ SelectionContained hs b'
      ∧ b'.last_known_height = b.last_known_height := by
  by_cases hguard : hs.length - 1 ≤ b.selected_index
  · refine ⟨b, ?_, hv, hc, rfl⟩
    unfold PostListBase.handle_scroll_down
    rw [if_neg hne, if_pos hguard]
  · obtain ⟨off', heq, hle, hfit⟩ := handle_scroll_down_step hs b (by omega) hv.1 hH
    exact ⟨_, heq, ⟨hle, by show b.selected_index + 1 < hs.length; omega⟩, hfit, rfl⟩

lemma run_op_preserves_bottom (s : ViewStack) (op : StackOp) (h : TimelineAtBottom s) :
    TimelineAtBottom (s.run_op op) := by
  obtain ⟨f, rest, hv⟩ := h
  cases op with
  | pushThread fetch =>
    cases fetch with
    | ok u =>
      cases u with
      | refs t =>
        exact ⟨f, rest ++ [View.thread t],
          by simp [ViewStack.run_op, ViewStack.push_thread_view, hv]⟩
      | unknown ty =>
        exact ⟨f, rest, by simp [ViewStack.run_op, ViewStack.push_thread_view, hv]⟩
    | error e =>
      exact ⟨f, rest, by simp [ViewStack.run_op, ViewStack.push_thread_view, hv]⟩
  | pushAuthorFeed ff pf =>
    cases ff with
    | ok fd =>
      cases pf with
      | ok p =>
        exact ⟨f, rest ++ [View.authorFeed (AuthorFeed.new p fd)],
          by simp [ViewStack.run_op, ViewStack.push_author_feed_view, hv]⟩
      | error e =>
        exact ⟨f, rest, by simp [ViewStack.run_op, ViewStack.push_author_feed_view, hv]⟩
    | error e =>
      exact ⟨f, rest, by simp [ViewStack.run_op, ViewStack.push_author_feed_view, hv]⟩
  | pushNotifications =>
    exact ⟨f, rest ++ [View.notifications NotificationView.new],
      by simp [ViewStack.run_op, ViewStack.push_notifications_view, hv]⟩
  | pop =>
    show TimelineAtBottom (s.pop_view).2
    unfold ViewStack.pop_view
    by_cases hlen : 1 < s.views.length
    · rw [if_pos hlen]
      cases rest with
      | nil => rw [hv] at hlen; simp at hlen
      | cons a rest' =>
        refine ⟨f, (a :: rest').dropLast, ?_⟩
        simp [hv]
    · rw [if_neg hlen]
      exact ⟨f, rest, hv⟩

lemma run_ops_preserves_bottom (ops : List StackOp) :
    ∀ s : ViewStack, TimelineAtBottom s → TimelineAtBottom (s.run_ops ops) := by
  induction ops with
  | nil => intro s h; exact h
  | cons op ops ih =>
    intro s h
    exact ih (s.run_op op) (run_op_preserves_bottom s op h)

/-- C1 (amended): for a non-empty list all of whose item heights are strictly
smaller than the viewport height, starting from a valid state whose selected
item is fully visible, any sequence of `scroll_down` calls (in particular any
of length at most the item count) keeps `selected_index` within bounds and
keeps the selected item fully inside the viewport row-space. -/
theorem scroll_down_sequence_keeps_selection_visible :
    ∀ (hs : List Nat) (b : PostListBase) (k : Nat),
      hs ≠ [] → (∀ x ∈ hs, x < b.last_known_height) →
      CursorValid hs b → SelectionContained hs b → k ≤ hs.length →
      ∃ b', scroll_down_iter hs k b = some b'
        ∧ b'.selected_index < hs.length ∧ SelectionContained hs b' := by
  intro hs b k
  induction k generalizing b with
  | zero =>
    intro _ _ hv hc _
    exact ⟨b, rfl, hv.2, hc⟩
  | succ k ih =>
    intro hne hH hv hc hk
    have hlen : hs.length ≠ 0 := by
      simpa using fun h => hne (List.length_eq_zero.mp h)
    obtain ⟨b', heq, hv', hc', hheight⟩ := handle_scroll_down_preserves hs b hlen hH hv hc
    obtain ⟨b'', heq'', hsel'', hc''⟩ :=
      ih b' hne (by rw [hheight]; exact hH) hv' hc' (by omega)
    exact ⟨b'', by rw [scroll_down_iter, heq, Option.some_bind, heq''], hsel'', hc''⟩

/-- C1 witness: three scroll_down calls over three items of height 2 in a
5-row viewport. -/
theorem scroll_down_sequence_keeps_selection_visible_witness :
    ∃ b', scroll_down_iter [2, 2, 2] 3 ⟨0, 0, 5⟩ = some b'
      ∧ b'.selected_index < ([2, 2, 2] : List Nat).length
      ∧ SelectionContained [2, 2, 2] b' :=
  scroll_down_sequence_keeps_selection_visible [2, 2, 2] ⟨0, 0, 5⟩ 3
    (by decide) (by decide) (by decide) (by decide) (by decide)

/-- C1 counterexample to the claim as stated: two items of heights 1 and 2 in
a 1-row viewport, starting from the valid state (0,0).  After a single
`scroll_down` (sequence length 1 ≤ item count 2) the selected item of height 2
is not fully contained in the 1-row viewport. -/
theorem scroll_down_tall_item_partial_clip :
    CursorValid [1, 2] ⟨0, 0, 1⟩ ∧
    scroll_down_iter [1, 2] 1 ⟨0, 0, 1⟩ = some ⟨1, 1, 1⟩ ∧
    ¬ SelectionContained [1, 2] ⟨1, 1, 1⟩ := by decide

/-- C4 (amended): from any state with `1 ≤ selected_index < item_count`,
`scroll_up` followed by `scroll_down` restores `selected_index`. -/
theorem scroll_up_then_down_restores_selection :
    ∀ (hs : List Nat) (b : PostListBase),
      1 ≤ b.selected_index → b.selected_index < hs.length →
      ∃ b', PostListBase.handle_scroll_down hs (PostListBase.handle_scroll_up b) = some b'
        ∧ b'.selected_index = b.selected_index := by
  intro hs b h1 h2
  unfold PostListBase.handle_scroll_up
  rw [if_neg (by omega : ¬ b.selected_index = 0)]
  unfold PostListBase.handle_scroll_down
  rw [if_neg (by omega : ¬ hs.length = 0)]
  rw [if_neg (by
    show ¬ hs.length - 1 ≤ b.selected_index - 1
    omega)]
  refine ⟨_, rfl, ?_⟩
  show (b.selected_index - 1) + 1 = b.selected_index
  omega

/-- C4 witness: two items of height 1, viewport 5, selection at index 1. -/
theorem scroll_up_then_down_restores_selection_witness :
    ∃ b', PostListBase.handle_scroll_down [1, 1] (PostListBase.handle_scroll_up ⟨1, 0, 5⟩) = some b'
      ∧ b'.selected_index = (⟨1, 0, 5⟩ : PostListBase).selected_index :=
  scroll_up_then_down_restores_selection [1, 1] ⟨1, 0, 5⟩ (by decide) (by decide)

/-- C4 counterexample to the claim as stated: at the valid state
`selected_index = 0` of a two-item list, `scroll_up` is a no-op, so the
following `scroll_down` advances the selection to 1 instead of restoring 0. -/
theorem scroll_up_noop_at_zero_then_down_advances :
    CursorValid [1, 1] ⟨0, 0, 5⟩ ∧
    (⟨0, 0, 5⟩ : PostListBase).selected_index = 0 ∧
    PostListBase.handle_scroll_down [1, 1] (PostListBase.handle_scroll_up ⟨0, 0, 5⟩) =
      some ⟨1, 0, 5⟩ := by decide

/-- C5 (amended): the cursor invariant `scroll_offset ≤ selected_index ∧
selected_index < item_count` holds in the initial state of a non-empty list,
is preserved by every `scroll_up`, and is preserved by `scroll_down` provided
the list is non-empty and every item height is strictly less than the
viewport height. -/
theorem cursor_invariant_preservation :
    (∀ hs : List Nat, hs ≠ [] → CursorValid hs PostListBase.new) ∧
    (∀ (hs : List Nat) (b : PostListBase), hs ≠ [] →
      (∀ x ∈ hs, x < b.last_known_height) → CursorValid hs b →
      ∃ b', PostListBase.handle_scroll_down hs b = some b' ∧ CursorValid hs b') ∧
    (∀ (hs : List Nat) (b : PostListBase), CursorValid hs b →
      CursorValid hs (PostListBase.handle_scroll_up b)) := by
  refine ⟨?_, ?_, ?_⟩
  · intro hs hne
    exact ⟨le_refl 0, List.length_pos.mpr hne⟩
  · intro hs b hne hH hv
    by_cases hguard : hs.length - 1 ≤ b.selected_index
    · refine ⟨b, ?_, hv⟩
      unfold PostListBase.handle_scroll_down
      rw [if_neg (by simpa using fun h => hne (List.length_eq_zero.mp h)), if_pos hguard]
    · obtain ⟨off', heq, hle, _⟩ := handle_scroll_down_step hs b (by omega) hv.1 hH
      exact ⟨_, heq, hle, by show b.selected_index + 1 < hs.length; omega⟩
  · intro hs b hv
    unfold PostListBase.handle_scroll_up
    by_cases h0 : b.selected_index = 0
    · rw [if_pos h0]; exact hv
    · rw [if_neg h0]
      constructor
      · show (if b.selected_index - 1 < b.scroll_offset then b.selected_index - 1
          else b.scroll_offset) ≤ b.selected_index - 1
        by_cases hlt : b.selected_index - 1 < b.scroll_offset
        · rw [if_pos hlt]
        · rw [if_neg hlt]; omega
      · show b.selected_index - 1 < hs.length
        have := hv.2
        omega

/-- C5 witness: the three conjuncts instantiated at concrete lists. -/
theorem cursor_invariant_preservation_witness :
    CursorValid [3] PostListBase.new ∧
    (∃ b', PostListBase.handle_scroll_down [2, 2] ⟨0, 0, 5⟩ = some b' ∧ CursorValid [2, 2] b') ∧
    CursorValid [2, 2] (PostListBase.handle_scroll_up ⟨1, 1, 5⟩) :=
  ⟨cursor_invariant_preservation.1 [3] (by decide),
   cursor_invariant_preservation.2.1 [2, 2] ⟨0, 0, 5⟩ (by decide) (by decide) (by decide),
   cursor_invariant_preservation.2.2 [2, 2] ⟨1, 1, 5⟩ (by decide)⟩

/-- C5 counterexample to the claim as stated: with three items of height 1 and
viewport height 0, one `scroll_down` from the valid state (0,0) produces
`scroll_offset = 2 > selected_index = 1`; and on an empty list `scroll_down`
underflows (`posts.len() - 1`). -/
theorem cursor_invariant_tall_item_offset_overrun :
    CursorValid [1, 1, 1] ⟨0, 0, 0⟩ ∧
    PostListBase.handle_scroll_down [1, 1, 1] ⟨0, 0, 0⟩ = some ⟨1, 2, 0⟩ ∧
    ¬ CursorValid [1, 1, 1] ⟨1, 2, 0⟩ ∧
    PostListBase.handle_scroll_down [] ⟨0, 0, 0⟩ = none := by decide

/-- C2 (amended): `needs_more_content` is true iff `selected_index` is
strictly greater than `item_count.saturating_sub(5)`; for lists of at least
five items this means the selection is within the last four items — false at
the 5th-from-last item, true at the 4th-from-last.  The AuthorFeed variant
shifts the selected index down by one for the profile row. -/
theorem needs_more_content_window_boundary :
    (∀ v : NotificationView, 5 ≤ v.notifications.length →
      (NotificationView.needs_more_content v = true ↔
        v.notifications.length - 4 ≤ v.base.selected_index)) ∧
    (∀ af : AuthorFeed, 5 ≤ af.posts.length → 1 ≤ af.base.selected_index →
      (AuthorFeed.needs_more_content af = true ↔
        af.posts.length - 3 ≤ af.base.selected_index)) := by
  constructor
  · intro v h5
    unfold NotificationView.needs_more_content
    rw [decide_eq_true_eq]
    omega
  · intro af h5 h1
    unfold AuthorFeed.needs_more_content
    rw [if_neg (by omega), decide_eq_true_eq]
    omega

/-- C2 witness: with ten items, the 4th-from-last selection (index 6) makes
`needs_more_content` true, and an AuthorFeed selection at index 8 likewise. -/
theorem needs_more_content_window_boundary_witness :
    NotificationView.needs_more_content witnessNotifView = true ∧
    AuthorFeed.needs_more_content witnessAuthorFeed = true :=
  ⟨(needs_more_content_window_boundary.1 witnessNotifView (by decide)).mpr (by decide),
   (needs_more_content_window_boundary.2 witnessAuthorFeed (by decide) (by decide)).mpr
     (by decide)⟩

/-- C2 counterexample to the claim as stated: ten notifications with the
selection on the 5th-from-last item (index 5 = 10 - 5): the claim demands
`needs_more_pagination()` be true there, but `needs_more_content` returns
false (it uses a strict `>`). -/
theorem needs_more_content_fifth_from_last_false :
    cexNotifView.notifications.length - 5 ≤ cexNotifView.base.selected_index ∧
    NotificationView.needs_more_content cexNotifView = false := by decide

/-- C3 (amended): on the anchor-with-two-replies scenario the computed
relationships make visible exactly the middle ancestor, the anchor and its
two direct replies — the root post (which carries no reply-parent record) is
not visible and neither is the reply to `reply1` — with indent level 0 at the
anchor and indent level 1 at the middle ancestor and at both direct
replies. -/
theorem thread_relationships_example_characterization :
    ThreadRelationships.is_visible (Thread.get_relationships exampleThread) "at://root" = false ∧
    ThreadRelationships.is_visible (Thread.get_relationships exampleThread) "at://m" = true ∧
    ThreadRelationships.is_visible (Thread.get_relationships exampleThread) "at://a" = true ∧
    ThreadRelationships.is_visible (Thread.get_relationships exampleThread) "at://r1" = true ∧
    ThreadRelationships.is_visible (Thread.get_relationships exampleThread) "at://r2" = true ∧
    ThreadRelationships.is_visible (Thread.get_relationships exampleThread) "at://rr1" = false ∧
    ThreadRelationships.get_indent_level (Thread.get_relationships exampleThread) "at://a" = 0 ∧
    ThreadRelationships.get_indent_level (Thread.get_relationships exampleThread) "at://m" = 1 ∧
    ThreadRelationships.get_indent_level (Thread.get_relationships exampleThread) "at://r1" = 1 ∧
    ThreadRelationships.get_indent_level (Thread.get_relationships exampleThread) "at://r2" = 1 := by
  decide

/-- C3 counterexample to the claim as stated: the claim requires the root post
to be visible (at indent 0) and the anchor to have indent 2, but the computed
relationships leave the root invisible and give the anchor indent 0. -/
theorem thread_relationships_root_not_visible :
    ThreadRelationships.is_visible (Thread.get_relationships exampleThread) "at://root" = false ∧
    ThreadRelationships.get_indent_level (Thread.get_relationships exampleThread) "at://a" = 0 := by
  decide

/-- C6: removing the sole (selected) post of a one-item AuthorFeed leaves
`get_selected_post` returning `none` as claimed, and `scroll_up` is safe, but
`scroll_down` on the now-empty list evaluates `posts.len() - 1`, which
underflows `usize` (modelled as `none`): a panic in a debug build, while in a
release build the wrapped guard passes and `selected_index` is set to 1 on an
empty list. -/
theorem remove_sole_item_then_scroll_down_underflows :
    View.remove_post (View.authorFeed soloAuthorFeed) "at://post1" =
      View.authorFeed emptyAuthorFeed ∧
    AuthorFeed.get_selected_post emptyAuthorFeed = none ∧
    AuthorFeed.scroll_up emptyAuthorFeed = emptyAuthorFeed ∧
    AuthorFeed.scroll_down emptyAuthorFeed = none := by decide

/-- C7: the stack starts as `[Timeline]`; after any sequence of push/pop
operations it is non-empty with a Timeline view at the bottom; every
(successful) push appends exactly one view at the top; pop removes the top
view when more than one view is present and otherwise removes nothing. -/
theorem view_stack_timeline_bottom_invariant :
    (ViewStack.new.views = [View.timeline Feed.new]) ∧
    (∀ ops : List StackOp, TimelineAtBottom (ViewStack.run_ops ViewStack.new ops)) ∧
    (∀ ops : List StackOp, 1 ≤ (ViewStack.run_ops ViewStack.new ops).views.length) ∧
    (∀ s : ViewStack, (s.push_notifications_view).views =
      s.views ++ [View.notifications NotificationView.new]) ∧
    (∀ (s : ViewStack) (t : Thread),
      (s.push_thread_view (.ok (.refs t))).2.views = s.views ++ [View.thread t]) ∧
    (∀ (s : ViewStack) (fd : List PostView) (p : AuthorProfile),
      (s.push_author_feed_view (.ok fd) (.ok p)).2.views =
        s.views ++ [View.authorFeed (AuthorFeed.new p fd)]) ∧
    (∀ s : ViewStack, 1 < s.views.length → (s.pop_view).2.views = s.views.dropLast) ∧
    (∀ s : ViewStack, ¬ 1 < s.views.length → (s.pop_view).2 = s) := by
  refine ⟨rfl, ?_, ?_, ?_, ?_, ?_, ?_, ?_⟩
  · intro ops
    exact run_ops_preserves_bottom ops ViewStack.new ⟨Feed.new, [], rfl⟩
  · intro ops
    obtain ⟨f, rest, hv⟩ := run_ops_preserves_bottom ops ViewStack.new ⟨Feed.new, [], rfl⟩
    rw [hv]
    simp
  · intro s
    rfl
  · intro s t
    rfl
  · intro s fd p
    rfl
  · intro s hlen
    unfold ViewStack.pop_view
    rw [if_pos hlen]
  · intro s hlen
    unfold ViewStack.pop_view
    rw [if_neg hlen]

/-- C7 witness: the invariant after a concrete push/pop sequence, and the pop
behaviour on a two-view stack and on the sole-Timeline stack. -/
theorem view_stack_timeline_bottom_invariant_witness :
    TimelineAtBottom (ViewStack.run_ops ViewStack.new [StackOp.pushNotifications, StackOp.pop]) ∧
    (twoViewStack.pop_view).2.views = twoViewStack.views.dropLast ∧
    (ViewStack.new.pop_view).2 = ViewStack.new :=
  ⟨view_stack_timeline_bottom_invariant.2.1 [StackOp.pushNotifications, StackOp.pop],
   view_stack_timeline_bottom_invariant.2.2.2.2.2.2.1 twoViewStack (by decide),
   view_stack_timeline_bottom_invariant.2.2.2.2.2.2.2 ViewStack.new (by decide)⟩

/-- C8: `push_thread_view` and `push_author_feed_view` are atomic: whenever
they report an error (a failed fetch, or an unusable fetched payload) the
stack is exactly as before, and a view is appended only on overall success. -/
theorem push_view_atomicity :
    (∀ (s : ViewStack) (fetch : Except String ThreadDataUnion) (e : String),
      (s.push_thread_view fetch).1 = .error e → (s.push_thread_view fetch).2 = s) ∧
    (∀ (s : ViewStack) (fetch : Except String ThreadDataUnion),
      (s.push_thread_view fetch).1 = .ok () →
      ∃ t, (s.push_thread_view fetch).2.views = s.views ++ [View.thread t]) ∧
    (∀ (s : ViewStack) (ff : Except String (List PostView))
        (pf : Except String AuthorProfile) (e : String),
      (s.push_author_feed_view ff pf).1 = .error e → (s.push_author_feed_view ff pf).2 = s) ∧
    (∀ (s : ViewStack) (ff : Except String (List PostView)) (pf : Except String AuthorProfile),
      (s.push_author_feed_view ff pf).1 = .ok () →
      ∃ af, (s.push_author_feed_view ff pf).2.views = s.views ++ [View.authorFeed af]) := by
  refine ⟨?_, ?_, ?_, ?_⟩
  · intro s fetch e h
    cases fetch with
    | ok u =>
      cases u with
      | refs t => simp [ViewStack.push_thread_view] at h
      | unknown ty => rfl
    | error e' => rfl
  · intro s fetch h
    cases fetch with
    | ok u =>
      cases u with
      | refs t => exact ⟨t, rfl⟩
      | unknown ty => simp [ViewStack.push_thread_view] at h
    | error e' => simp [ViewStack.push_thread_view] at h
  · intro s ff pf e h
    cases ff with
    | ok fd =>
      cases pf with
      | ok p => simp [ViewStack.push_author_feed_view] at h
      | error e' => rfl
    | error e' => rfl
  · intro s ff pf h
    cases ff with
    | ok fd =>
      cases pf with
      | ok p => exact ⟨AuthorFeed.new p fd, rfl⟩
      | error e' => simp [ViewStack.push_author_feed_view] at h
    | error e' => simp [ViewStack.push_author_feed_view] at h

/-- C8 witness: a failed thread fetch and a failed profile fetch leave the
stack unchanged; a successful thread fetch appends the thread view. -/
theorem push_view_atomicity_witness :
    (ViewStack.new.push_thread_view (.error "network error")).2 = ViewStack.new ∧
    (∃ t, (ViewStack.new.push_thread_view (.ok (.refs exampleThread))).2.views =
      ViewStack.new.views ++ [View.thread t]) ∧
    (ViewStack.new.push_author_feed_view (.ok []) (.error "profile fetch failed")).2 =
      ViewStack.new :=
  ⟨push_view_atomicity.1 ViewStack.new (.error "network error") "network error" rfl,
   push_view_atomicity.2.1 ViewStack.new (.ok (.refs exampleThread)) rfl,
   push_view_atomicity.2.2.1 ViewStack.new (.ok []) (.error "profile fetch failed")
     "profile fetch failed" rfl⟩

/-- C9: for every post and viewport width the computed item height equals
2 (borders) + 1 (header) + 1 (stats) + the wrapped main-text rows at the
padded width, plus 15 fixed rows for an image block, plus the quote-block rows
(1 header + wrapped quoted-text rows + 1 stats + 2 borders, plus 15 more when
the quoted post has images) when a quoted post is embedded. -/
theorem calculate_post_height_formula :
    ∀ (fill_line_count : String → Nat → Nat) (post : PostView) (available_width : Nat),
      PostListBase.calculate_post_height fill_line_count post available_width =
        2 + 1 + 1 + specTextRows fill_line_count post available_width +
          specImageRows post + specQuoteRows fill_line_count post available_width := by
  intro fill_line_count post available_width
  rcases post with ⟨uri, author, text, img, q⟩
  unfold PostListBase.calculate_post_height specTextRows specImageRows specQuoteRows
  rcases q with _ | ⟨qu, qt, qi⟩
  · cases text <;> cases img <;> simp
  · cases text <;> cases qt <;> cases qi <;> cases img <;> simp <;> omega

/-- C10: `get_notification` returns the notification at `selected_index`
exactly under the precondition that the index is in range; on an empty
notification list the indexing is out of bounds (a panic, modelled as
`none`), and the Notifications arms of the follow ('f'), view-author ('a')
and `profile`-command handlers all reach it on a freshly pushed, still-empty
notifications view. -/
theorem get_notification_empty_list_out_of_bounds :
    (∀ (v : NotificationView) (h : v.base.selected_index < v.notifications.length),
      v.get_notification = some (v.notifications.get ⟨v.base.selected_index, h⟩)) ∧
    (∀ v : NotificationView, v.notifications = [] → v.get_notification = none) ∧
    (App.handle_follow_notifications_did NotificationView.new = none) ∧
    (App.handle_view_author_notifications_did NotificationView.new = none) ∧
    (App.handle_profile_command_notifications_did NotificationView.new = none) := by
  refine ⟨?_, ?_, rfl, rfl, rfl⟩
  · intro v h
    unfold NotificationView.get_notification
    rw [List.getElem?_eq_getElem h]
    simp
  · intro v h
    unfold NotificationView.get_notification
    rw [h]
    simp

/-- C10 witness: a one-notification view with the cursor in range, and the
empty-list case on a fresh notifications view. -/
theorem get_notification_empty_list_out_of_bounds_witness :
    singletonNotifView.get_notification =
      some (singletonNotifView.notifications.get ⟨0, by decide⟩) ∧
    NotificationView.new.get_notification = none :=
  ⟨get_notification_empty_list_out_of_bounds.1 singletonNotifView (by decide),
   get_notification_empty_list_out_of_bounds.2.1 NotificationView.new rfl⟩

end Skyline
